import Mathlib

/-!
Verification development for the `tab-chief` leader-election library.

The development shallowly embeds the `TabChief` class of `src/core.ts`:
the mutable instance becomes an explicit state record, every method
becomes a pure function `TabChief → ... → TabChief × List Event`, and all
observable side effects (transport sends, exclusive-task setups and
cleanups, observer-callback invocations, caught exceptions) are recorded
in an event list.  `Date.now()` becomes an explicit `now : Nat` argument.
Exclusive tasks, cleanups and observer callbacks are modelled as data
records carrying an identifier and a `throws` flag; invoking one emits an
event (plus an error event when it throws), mirroring the try/catch
guards in the source.  A small multi-peer world model on top of the
per-instance semantics replays concrete broadcast schedules.
-/

/-- Tab state enumeration, from `TabState` in `src/types.ts`. -/
inductive TabState where
  | IDLE
  | ELECTING
  | CHIEF
  | FOLLOWER
  | STOPPED
  deriving DecidableEq

/-- Protocol message types, from `MessageType` in `src/types.ts`. -/
inductive MessageType where
  | HEARTBEAT
  | ELECTION
  | VICTORY
  | ALIVE
  | DATA
  | SHUTDOWN
  deriving DecidableEq

/-- A message on the broadcast channel, from `ChannelMessage` in
`src/types.ts`.  The `DATA` payload is modelled as an opaque `Nat`;
non-`DATA` messages ignore the `payload` field. -/
structure ChannelMessage where
  type : MessageType
  senderId : String
  timestamp : Nat
  payload : Nat := 0
  deriving DecidableEq

/-- A registered cleanup function, modelled as data: an identifier and
whether invoking it throws. -/
structure CleanupSpec where
  cid : Nat
  throws : Bool := false
  deriving DecidableEq

/-- A registered exclusive task (`ExclusiveTask` in `src/types.ts`),
modelled as data: an identifier, whether its setup throws, and the
cleanup it returns (if any). -/
structure TaskSpec where
  tid : Nat
  throws : Bool := false
  cleanup : Option CleanupSpec := none
  deriving DecidableEq

/-- A subscribed observer callback, modelled as data: an identifier and
whether invoking it throws. -/
structure CallbackSpec where
  cbId : Nat
  throws : Bool := false
  deriving DecidableEq

/-- The kind of the pending one-shot election timer: armed by
`startElection` to fire `declareVictory`, or armed by
`resetElectionTimeout` to fire a fresh election (chief-liveness
timeout). -/
inductive TimerKind where
  | victory
  | liveness
  deriving DecidableEq

/-- Observable effects of an operation. -/
inductive Event where
  /-- A message handed to the transport (`channel.postMessage`). -/
  | sent (m : ChannelMessage)
  /-- An exclusive task's setup was invoked. -/
  | setupRun (tid : Nat)
  /-- A stored cleanup was invoked. -/
  | cleanupRun (cid : Nat)
  /-- A caught exception was reported (`console.error`). -/
  | errorLogged
  /-- A state-change callback was invoked with (new, old). -/
  | stateChangedCb (cbId : Nat) (next prev : TabState)
  /-- A become-chief callback was invoked. -/
  | becameChiefCb (cbId : Nat)
  /-- A become-follower callback was invoked. -/
  | becameFollowerCb (cbId : Nat)
  /-- A message callback was invoked with a `DATA` payload. -/
  | msgCb (cbId : Nat) (payload : Nat)
  deriving DecidableEq

/-- The state of one `TabChief` instance: every mutable field of the
class in `src/core.ts`, with timers replaced by what they would do on
firing. -/
structure TabChief where
  tabId : String
  creationTimestamp : Nat
  channelOpen : Bool
  state : TabState
  currentChiefId : Option String
  heartbeatTimer : Bool
  electionTimer : Option TimerKind
  electionDebounceTimer : Bool
  exclusiveTasks : List TaskSpec
  activeCleanups : List CleanupSpec
  messageCallbacks : List CallbackSpec
  stateChangeCallbacks : List CallbackSpec
  becomeChiefCallbacks : List CallbackSpec
  becomeFollowerCallbacks : List CallbackSpec
  beforeUnloadBound : Bool
  deriving DecidableEq

/-- A freshly constructed instance (the constructor of `TabChief`). -/
def initTabChief (tabId : String) (creationTimestamp : Nat) : TabChief :=
  { tabId := tabId
    creationTimestamp := creationTimestamp
    channelOpen := false
    state := TabState.IDLE
    currentChiefId := none
    heartbeatTimer := false
    electionTimer := none
    electionDebounceTimer := false
    exclusiveTasks := []
    activeCleanups := []
    messageCallbacks := []
    stateChangeCallbacks := []
    becomeChiefCallbacks := []
    becomeFollowerCallbacks := []
    beforeUnloadBound := false }

namespace TabChief

/-- The `isChief` accessor. -/
def isChief (c : TabChief) : Bool :=
  c.state == TabState.CHIEF

/-- The `shouldYieldTo(otherId, otherTimestamp)` from `src/core.ts`:
earlier creation time wins; on equal timestamps the lexicographically
smaller id wins.  The JavaScript `<` on strings compares code units
left to right; it is modelled as the lexicographic order on the
character list, which agrees with `String` order
(`String.lt_iff_toList_lt`). -/
def shouldYieldTo (c : TabChief) (otherId : String) (otherTimestamp : Nat) : Bool :=
  if otherTimestamp ≠ c.creationTimestamp then
    decide (otherTimestamp < c.creationTimestamp)
  else
    decide (otherId.data < c.tabId.data)

/-- The `broadcast(message)`: hands the message to the transport when the
channel is open, otherwise does nothing. -/
def broadcast (c : TabChief) (m : ChannelMessage) : List Event :=
  if c.channelOpen then [Event.sent m] else []

/-- Fan-out over state-change callbacks; each invocation is guarded by
try/catch in the source. -/
def notifyStateChangeList (next prev : TabState) : List CallbackSpec → List Event
  | [] => []
  | cb :: rest =>
    (Event.stateChangedCb cb.cbId next prev ::
      (if cb.throws then [Event.errorLogged] else [])) ++
      notifyStateChangeList next prev rest

/-- Fan-out over become-chief callbacks. -/
def notifyBecomeChiefList : List CallbackSpec → List Event
  | [] => []
  | cb :: rest =>
    (Event.becameChiefCb cb.cbId :: (if cb.throws then [Event.errorLogged] else [])) ++
      notifyBecomeChiefList rest

/-- Fan-out over become-follower callbacks. -/
def notifyBecomeFollowerList : List CallbackSpec → List Event
  | [] => []
  | cb :: rest =>
    (Event.becameFollowerCb cb.cbId :: (if cb.throws then [Event.errorLogged] else [])) ++
      notifyBecomeFollowerList rest

/-- Fan-out over message callbacks with a payload. -/
def notifyMessageList (payload : Nat) : List CallbackSpec → List Event
  | [] => []
  | cb :: rest =>
    (Event.msgCb cb.cbId payload :: (if cb.throws then [Event.errorLogged] else [])) ++
      notifyMessageList payload rest

/-- The `notifyMessageCallbacks(data)` from `src/core.ts`. -/
def notifyMessageCallbacks (c : TabChief) (payload : Nat) : List Event :=
  notifyMessageList payload c.messageCallbacks

/-- The `setState(newState)` from `src/core.ts`: no-op when unchanged,
otherwise update and fire state-change plus leadership callbacks. -/
def setState (c : TabChief) (newState : TabState) : TabChief × List Event :=
  let oldState := c.state
  if oldState == newState then (c, [])
  else
    let c1 : TabChief := { c with state := newState }
    let evs := notifyStateChangeList newState oldState c1.stateChangeCallbacks
    let evs2 :=
      if newState == TabState.CHIEF && oldState != TabState.CHIEF then
        notifyBecomeChiefList c1.becomeChiefCallbacks
      else if newState == TabState.FOLLOWER && oldState == TabState.CHIEF then
        notifyBecomeFollowerList c1.becomeFollowerCallbacks
      else []
    (c1, evs ++ evs2)

/-- The `runTask(task)`: invoke a setup inside try/catch; a returned cleanup
is pushed onto the active-cleanup list. -/
def runTask (c : TabChief) (t : TaskSpec) : TabChief × List Event :=
  if t.throws then (c, [Event.setupRun t.tid, Event.errorLogged])
  else
    match t.cleanup with
    | some cl => ({ c with activeCleanups := c.activeCleanups ++ [cl] }, [Event.setupRun t.tid])
    | none => (c, [Event.setupRun t.tid])

/-- Helper iterating `runTask` over a task list. -/
def runTaskList (c : TabChief) : List TaskSpec → TabChief × List Event
  | [] => (c, [])
  | t :: ts =>
    let s := runTask c t
    let r := runTaskList s.1 ts
    (r.1, s.2 ++ r.2)

/-- The `runAllTasks()`: run every registered exclusive task's setup. -/
def runAllTasks (c : TabChief) : TabChief × List Event :=
  runTaskList c c.exclusiveTasks

/-- Events of running a cleanup list, each guarded by try/catch. -/
def cleanupEvents : List CleanupSpec → List Event
  | [] => []
  | cl :: rest =>
    (Event.cleanupRun cl.cid :: (if cl.throws then [Event.errorLogged] else [])) ++
      cleanupEvents rest

/-- The `runCleanups()`: run every active cleanup, then clear the list. -/
def runCleanups (c : TabChief) : TabChief × List Event :=
  ({ c with activeCleanups := [] }, cleanupEvents c.activeCleanups)

/-- The `stopHeartbeat()`. -/
def stopHeartbeat (c : TabChief) : TabChief :=
  { c with heartbeatTimer := false }

/-- The `sendHeartbeat()`: broadcast a `HEARTBEAT` stamped with the current
clock reading. -/
def sendHeartbeat (c : TabChief) (now : Nat) : List Event :=
  c.broadcast { type := MessageType.HEARTBEAT, senderId := c.tabId, timestamp := now }

/-- The `startHeartbeat()`: cancel any prior heartbeat timer, send one
immediate heartbeat, arm the repeating timer. -/
def startHeartbeat (c : TabChief) (now : Nat) : TabChief × List Event :=
  let c1 := stopHeartbeat c
  let evs := sendHeartbeat c1 now
  ({ c1 with heartbeatTimer := true }, evs)

/-- The `clearElectionTimer()`. -/
def clearElectionTimer (c : TabChief) : TabChief :=
  { c with electionTimer := none }

/-- The `resetElectionTimeout()`: re-arm the chief-liveness timer. -/
def resetElectionTimeout (c : TabChief) : TabChief :=
  { clearElectionTimer c with electionTimer := some TimerKind.liveness }

/-- The `clearTimers()`. -/
def clearTimers (c : TabChief) : TabChief :=
  { stopHeartbeat (clearElectionTimer c) with electionDebounceTimer := false }

/-- The `startElection()`: debounced; sets `ELECTING`, broadcasts
`ELECTION` carrying the creation timestamp, arms the victory timer. -/
def startElection (c : TabChief) : TabChief × List Event :=
  if c.electionDebounceTimer then (c, [])
  else
    let c1 : TabChief := { c with electionDebounceTimer := true }
    let s := setState c1 TabState.ELECTING
    let c2 := clearElectionTimer s.1
    let evs :=
      c2.broadcast { type := MessageType.ELECTION, senderId := c2.tabId,
                     timestamp := c2.creationTimestamp }
    ({ c2 with electionTimer := some TimerKind.victory }, s.2 ++ evs)

/-- The `declareVictory()`: become `CHIEF`, broadcast `VICTORY` stamped with
the current clock reading, start the heartbeat, run all exclusive
tasks. -/
def declareVictory (c : TabChief) (now : Nat) : TabChief × List Event :=
  let c1 := clearElectionTimer c
  let s := setState c1 TabState.CHIEF
  let c2 : TabChief := { s.1 with currentChiefId := some s.1.tabId }
  let evs :=
    c2.broadcast { type := MessageType.VICTORY, senderId := c2.tabId, timestamp := now }
  let h := startHeartbeat c2 now
  let r := runAllTasks h.1
  (r.1, s.2 ++ evs ++ h.2 ++ r.2)

/-- The `becomeFollower(chiefId)`: set `FOLLOWER`, track the chief, stop the
heartbeat, run cleanups when leadership was lost, re-arm the liveness
timer. -/
def becomeFollower (c : TabChief) (chiefId : String) : TabChief × List Event :=
  let wasChief := c.state == TabState.CHIEF
  let s := setState c TabState.FOLLOWER
  let c1 : TabChief := { s.1 with currentChiefId := some chiefId }
  let c2 := stopHeartbeat c1
  let r := if wasChief then runCleanups c2 else (c2, [])
  (resetElectionTimeout r.1, s.2 ++ r.2)

/-- The `handleHeartbeat(senderId)`: conflict resolution while `CHIEF` uses
the tie-break against the receiver's current clock reading; otherwise a
live non-chief adopts the sender. -/
def handleHeartbeat (c : TabChief) (senderId : String) (now : Nat) : TabChief × List Event :=
  if c.state == TabState.CHIEF && senderId != c.tabId then
    if c.shouldYieldTo senderId now then becomeFollower c senderId else (c, [])
  else if c.state == TabState.ELECTING || c.state == TabState.FOLLOWER then
    becomeFollower { c with currentChiefId := some senderId } senderId
  else (c, [])

/-- The `handleElectionRequest(senderId, senderTimestamp)`: a receiver that
does not yield responds `ALIVE` with its creation timestamp and, unless
`CHIEF`, starts its own election. -/
def handleElectionRequest (c : TabChief) (senderId : String) (senderTimestamp : Nat) :
    TabChief × List Event :=
  if !(c.shouldYieldTo senderId senderTimestamp) then
    let evs :=
      c.broadcast { type := MessageType.ALIVE, senderId := c.tabId,
                    timestamp := c.creationTimestamp }
    if c.state != TabState.CHIEF then
      let s := startElection c
      (s.1, evs ++ s.2)
    else (c, evs)
  else (c, [])

/-- The `handleAliveResponse(senderId, senderTimestamp)`: while `ELECTING`,
concede to a higher-priority responder. -/
def handleAliveResponse (c : TabChief) (senderId : String) (senderTimestamp : Nat) :
    TabChief × List Event :=
  if c.state == TabState.ELECTING then
    if c.shouldYieldTo senderId senderTimestamp then
      let c1 := clearElectionTimer c
      let s := setState c1 TabState.FOLLOWER
      (resetElectionTimeout s.1, s.2)
    else (c, [])
  else (c, [])

/-- The `handleVictory(senderId)`: while `CHIEF`, tie-break against the
receiver's current clock reading, re-asserting by rebroadcasting
`VICTORY` on a won tie-break; any other state adopts the sender. -/
def handleVictory (c : TabChief) (senderId : String) (now : Nat) : TabChief × List Event :=
  if senderId == c.tabId then (c, [])
  else if c.state == TabState.CHIEF then
    if c.shouldYieldTo senderId now then becomeFollower c senderId
    else
      (c, c.broadcast { type := MessageType.VICTORY, senderId := c.tabId, timestamp := now })
  else becomeFollower c senderId

/-- The `handleShutdown(senderId)`: a shutdown notice from the tracked chief
clears it and starts a new election. -/
def handleShutdown (c : TabChief) (senderId : String) : TabChief × List Event :=
  if some senderId == c.currentChiefId then
    startElection { c with currentChiefId := none }
  else (c, [])

/-- The `handleMessage(message)`: dispatch on the message type, ignoring
messages from the instance's own id. -/
def handleMessage (c : TabChief) (m : ChannelMessage) (now : Nat) : TabChief × List Event :=
  if m.senderId == c.tabId then (c, [])
  else
    match m.type with
    | MessageType.HEARTBEAT => handleHeartbeat c m.senderId now
    | MessageType.ELECTION => handleElectionRequest c m.senderId m.timestamp
    | MessageType.ALIVE => handleAliveResponse c m.senderId m.timestamp
    | MessageType.VICTORY => handleVictory c m.senderId now
    | MessageType.DATA => (c, notifyMessageCallbacks c m.payload)
    | MessageType.SHUTDOWN => handleShutdown c m.senderId

/-- The `start()`: no-op unless `IDLE` or `STOPPED`; opens the channel,
binds the unload handler and starts an election. -/
def start (c : TabChief) : TabChief × List Event :=
  if c.state != TabState.IDLE && c.state != TabState.STOPPED then (c, [])
  else
    startElection { c with channelOpen := true, beforeUnloadBound := true }

/-- The `stop()`: no-op when `STOPPED` or `IDLE`; otherwise announce
shutdown when `CHIEF`, run cleanups, cancel timers, unbind the unload
handler, close the channel, set `STOPPED`, forget the chief. -/
def stop (c : TabChief) (now : Nat) : TabChief × List Event :=
  if c.state == TabState.STOPPED || c.state == TabState.IDLE then (c, [])
  else
    let evs :=
      if c.state == TabState.CHIEF then
        c.broadcast { type := MessageType.SHUTDOWN, senderId := c.tabId, timestamp := now }
      else []
    let r := runCleanups c
    let c1 := clearTimers r.1
    let c2 : TabChief := { c1 with beforeUnloadBound := false, channelOpen := false }
    let s := setState c2 TabState.STOPPED
    ({ s.1 with currentChiefId := none }, evs ++ r.2 ++ s.2)

/-- The `runExclusive(task)`: register the task; when already `CHIEF`, run
it synchronously before returning. -/
def runExclusive (c : TabChief) (t : TaskSpec) : TabChief × List Event :=
  let c1 : TabChief := { c with exclusiveTasks := c.exclusiveTasks ++ [t] }
  if c1.state == TabState.CHIEF then runTask c1 t else (c1, [])

/-- The `postMessage(data)`: no-op when the channel is missing or the state
is `STOPPED`/`IDLE`; otherwise hand a `DATA` message to the transport
and invoke the local message callbacks. -/
def postMessage (c : TabChief) (payload : Nat) (now : Nat) : TabChief × List Event :=
  if !c.channelOpen || c.state == TabState.STOPPED || c.state == TabState.IDLE then (c, [])
  else
    (c, Event.sent { type := MessageType.DATA, senderId := c.tabId, timestamp := now,
                     payload := payload } :: notifyMessageCallbacks c payload)

/-- The `onMessage(callback)`. -/
def onMessage (c : TabChief) (cb : CallbackSpec) : TabChief :=
  { c with messageCallbacks := c.messageCallbacks ++ [cb] }

/-- The `onStateChange(callback)`. -/
def onStateChange (c : TabChief) (cb : CallbackSpec) : TabChief :=
  { c with stateChangeCallbacks := c.stateChangeCallbacks ++ [cb] }

/-- The `onBecomeChief(callback)`. -/
def onBecomeChief (c : TabChief) (cb : CallbackSpec) : TabChief :=
  { c with becomeChiefCallbacks := c.becomeChiefCallbacks ++ [cb] }

/-- The `onBecomeFollower(callback)`. -/
def onBecomeFollower (c : TabChief) (cb : CallbackSpec) : TabChief :=
  { c with becomeFollowerCallbacks := c.becomeFollowerCallbacks ++ [cb] }

/-- The pending election timer fires: `declareVictory` when armed by
`startElection`, a fresh election (with the tracked chief forgotten)
when armed by `resetElectionTimeout`. -/
def fireElectionTimer (c : TabChief) (now : Nat) : TabChief × List Event :=
  match c.electionTimer with
  | none => (c, [])
  | some TimerKind.victory => declareVictory { c with electionTimer := none } now
  | some TimerKind.liveness =>
      startElection { c with electionTimer := none, currentChiefId := none }

/-- One tick of the repeating heartbeat timer. -/
def fireHeartbeatTimer (c : TabChief) (now : Nat) : TabChief × List Event :=
  if c.heartbeatTimer then (c, sendHeartbeat c now) else (c, [])

/-- The election debounce window elapses. -/
def debounceExpire (c : TabChief) : TabChief :=
  { c with electionDebounceTimer := false }

/-- The `handleBeforeUnload()`: best-effort `SHUTDOWN` when `CHIEF`, then
run cleanups. -/
def handleBeforeUnload (c : TabChief) (now : Nat) : TabChief × List Event :=
  let evs :=
    if c.state == TabState.CHIEF then
      c.broadcast { type := MessageType.SHUTDOWN, senderId := c.tabId, timestamp := now }
    else []
  let r := runCleanups c
  (r.1, evs ++ r.2)

end TabChief

/-! ## Multi-peer world model

A world is a shared `BroadcastChannel` with several peers, a global
clock, and per-peer inboxes of in-flight messages.  The transport does
not loop a sender's message back to itself and delivers only to peers
whose channel is open, matching the `BroadcastChannel` contract. -/

/-- One peer and its in-flight (sent but not yet delivered) messages. -/
structure PeerNode where
  chief : TabChief
  inbox : List ChannelMessage
  deriving DecidableEq

/-- A configuration of peers on one channel, with a global clock. -/
structure World where
  now : Nat
  peers : List PeerNode
  deriving DecidableEq

/-- Enqueue `m` to every peer other than the sender whose channel is
open (`j` is the index of the first peer in the list). -/
def routeMsg (m : ChannelMessage) (sender : Nat) : Nat → List PeerNode → List PeerNode
  | _, [] => []
  | j, p :: rest =>
    (if j ≠ sender ∧ p.chief.channelOpen then { p with inbox := p.inbox ++ [m] } else p) ::
      routeMsg m sender (j + 1) rest

/-- Route every `sent` event of peer `sender` to the other peers. -/
def routeEvents (sender : Nat) (evs : List Event) (peers : List PeerNode) : List PeerNode :=
  evs.foldl
    (fun ps e =>
      match e with
      | Event.sent m => routeMsg m sender 0 ps
      | _ => ps)
    peers

/-- Scheduler events driving a world execution: starting or stopping a
peer, delivering the oldest in-flight message of a peer's inbox, timers
firing, and the clock advancing. -/
inductive WEvent where
  | tick (n : Nat)
  | startPeer (i : Nat)
  | stopPeer (i : Nat)
  | deliver (i : Nat)
  | fireElection (i : Nat)
  | fireHeartbeat (i : Nat)
  | debounce (i : Nat)
  deriving DecidableEq

/-- Apply an operation to peer `i` and route its sends. -/
def applyPeerOp (w : World) (i : Nat) (f : TabChief → TabChief × List Event) : World :=
  match w.peers[i]? with
  | none => w
  | some p =>
    let s := f p.chief
    let peers := w.peers.set i { p with chief := s.1 }
    { w with peers := routeEvents i s.2 peers }

/-- One world step. -/
def worldStep (w : World) : WEvent → World
  | WEvent.tick n => { w with now := w.now + n }
  | WEvent.startPeer i => applyPeerOp w i (fun c => c.start)
  | WEvent.stopPeer i => applyPeerOp w i (fun c => c.stop w.now)
  | WEvent.fireElection i => applyPeerOp w i (fun c => c.fireElectionTimer w.now)
  | WEvent.fireHeartbeat i => applyPeerOp w i (fun c => c.fireHeartbeatTimer w.now)
  | WEvent.debounce i => applyPeerOp w i (fun c => (c.debounceExpire, []))
  | WEvent.deliver i =>
    match w.peers[i]? with
    | none => w
    | some p =>
      match p.inbox with
      | [] => w
      | m :: rest =>
        if p.chief.channelOpen then
          let s := p.chief.handleMessage m w.now
          let peers := w.peers.set i { chief := s.1, inbox := rest }
          { w with peers := routeEvents i s.2 peers }
        else
          { w with peers := w.peers.set i { p with inbox := rest } }

/-- Run a schedule of world events. -/
def worldExec (w : World) : List WEvent → World
  | [] => w
  | e :: es => worldExec (worldStep w e) es


/-! ## Structural lemmas about the per-instance operations -/

namespace TabChief

/-- Lemma: `setState` always lands in the requested state and changes no other
field. -/
theorem setState_fst (c : TabChief) (s : TabState) :
    (setState c s).1 = { c with state := s } := by
  unfold setState
  by_cases h : c.state = s
  · cases c
    simp_all
  · simp [h]

/-- Cleanups collected by running a task list: the cleanups returned by
the non-throwing setups, in order. -/
def collectCleanups : List TaskSpec → List CleanupSpec
  | [] => []
  | t :: ts => (if t.throws then [] else t.cleanup.toList) ++ collectCleanups ts

theorem runTaskList_fst (c : TabChief) (ts : List TaskSpec) :
    (runTaskList c ts).1 = { c with activeCleanups := c.activeCleanups ++ collectCleanups ts } := by
  induction ts generalizing c with
  | nil => simp [runTaskList, collectCleanups]
  | cons t ts ih =>
    simp only [runTaskList, collectCleanups]
    rw [ih]
    unfold runTask
    by_cases h : t.throws = true
    · simp [h]
    · simp only [h]
      cases t.cleanup <;> simp [Option.toList]

/-- The events of running a task list. -/
def taskEvents : List TaskSpec → List Event
  | [] => []
  | t :: ts =>
    (Event.setupRun t.tid :: (if t.throws then [Event.errorLogged] else [])) ++ taskEvents ts

theorem runTaskList_snd (c : TabChief) (ts : List TaskSpec) :
    (runTaskList c ts).2 = taskEvents ts := by
  induction ts generalizing c with
  | nil => simp [runTaskList, taskEvents]
  | cons t ts ih =>
    simp only [runTaskList, taskEvents]
    rw [ih]
    unfold runTask
    by_cases h : t.throws = true
    · simp [h]
    · simp only [h]
      cases t.cleanup <;> simp

theorem runAllTasks_fst (c : TabChief) :
    (runAllTasks c).1 =
      { c with activeCleanups := c.activeCleanups ++ collectCleanups c.exclusiveTasks } :=
  runTaskList_fst c c.exclusiveTasks

theorem runAllTasks_snd (c : TabChief) :
    (runAllTasks c).2 = taskEvents c.exclusiveTasks :=
  runTaskList_snd c c.exclusiveTasks

/-- Characterization of `startElection`: debounced no-op, or the election
moves. -/
theorem startElection_fst (c : TabChief) :
    (startElection c).1 =
      if c.electionDebounceTimer then c
      else { c with electionDebounceTimer := true, state := TabState.ELECTING,
                    electionTimer := some TimerKind.victory } := by
  unfold startElection
  by_cases h : c.electionDebounceTimer = true
  · simp [h]
  · simp only [h, Bool.false_eq_true, if_false, if_neg]
    simp [setState_fst, clearElectionTimer]

theorem startElection_snd (c : TabChief) :
    (startElection c).2 =
      if c.electionDebounceTimer then []
      else
        (setState { c with electionDebounceTimer := true } TabState.ELECTING).2 ++
          (if c.channelOpen then
            [Event.sent { type := MessageType.ELECTION, senderId := c.tabId,
                          timestamp := c.creationTimestamp }]
          else []) := by
  unfold startElection
  by_cases h : c.electionDebounceTimer = true
  · simp [h]
  · simp [h, setState_fst, clearElectionTimer, broadcast]

/-- Characterization of `becomeFollower`. -/
theorem becomeFollower_fst (c : TabChief) (chiefId : String) :
    (becomeFollower c chiefId).1 =
      { c with state := TabState.FOLLOWER, currentChiefId := some chiefId,
               heartbeatTimer := false, electionTimer := some TimerKind.liveness,
               activeCleanups :=
                 if c.state == TabState.CHIEF then [] else c.activeCleanups } := by
  unfold becomeFollower
  by_cases h : c.state == TabState.CHIEF
  · simp [h, setState_fst, stopHeartbeat, runCleanups, resetElectionTimeout, clearElectionTimer]
  · simp [h, setState_fst, stopHeartbeat, resetElectionTimeout, clearElectionTimer]

theorem becomeFollower_snd (c : TabChief) (chiefId : String) :
    (becomeFollower c chiefId).2 =
      (setState c TabState.FOLLOWER).2 ++
        (if c.state == TabState.CHIEF then cleanupEvents c.activeCleanups else []) := by
  unfold becomeFollower
  by_cases h : c.state == TabState.CHIEF
  · simp [h, setState_fst, stopHeartbeat, runCleanups]
  · simp [h]

/-- Characterization of `declareVictory`. -/
theorem declareVictory_fst (c : TabChief) (now : Nat) :
    (declareVictory c now).1 =
      { c with electionTimer := none, state := TabState.CHIEF,
               currentChiefId := some c.tabId, heartbeatTimer := true,
               activeCleanups := c.activeCleanups ++ collectCleanups c.exclusiveTasks } := by
  unfold declareVictory
  simp [setState_fst, clearElectionTimer, startHeartbeat, stopHeartbeat, runAllTasks,
        runTaskList_fst]

end TabChief

/-! ## Event filters

Projections used to count specific observable effects inside an event
trace. -/

/-- The task id of a setup invocation. -/
def setupRunId : Event → Option Nat
  | Event.setupRun i => some i
  | _ => none

/-- The cleanup id of a cleanup invocation. -/
def cleanupRunId : Event → Option Nat
  | Event.cleanupRun i => some i
  | _ => none

/-- The payload-carrying invocation of a message callback. -/
def msgCbIdFor (payload : Nat) : Event → Option Nat
  | Event.msgCb i q => if q = payload then some i else none
  | _ => none

/-- A state-change callback invocation, with its (new, old) argument. -/
def stateChangedOf : Event → Option (Nat × TabState × TabState)
  | Event.stateChangedCb i n p => some (i, n, p)
  | _ => none

/-- A become-chief callback invocation. -/
def becameChiefOf : Event → Option Nat
  | Event.becameChiefCb i => some i
  | _ => none

/-- A become-follower callback invocation. -/
def becameFollowerOf : Event → Option Nat
  | Event.becameFollowerCb i => some i
  | _ => none

/-- A message handed to the transport. -/
def sentOf : Event → Option ChannelMessage
  | Event.sent m => some m
  | _ => none

namespace TabChief

theorem stateList_filter_stateChanged (n o : TabState) (L : List CallbackSpec) :
    (notifyStateChangeList n o L).filterMap stateChangedOf =
      L.map fun cb => (cb.cbId, n, o) := by
  induction L with
  | nil => simp [notifyStateChangeList]
  | cons cb L ih =>
    by_cases h : cb.throws = true <;>
      simp [notifyStateChangeList, h, stateChangedOf, ih]

theorem stateList_filter_becameChief (n o : TabState) (L : List CallbackSpec) :
    (notifyStateChangeList n o L).filterMap becameChiefOf = [] := by
  induction L with
  | nil => simp [notifyStateChangeList]
  | cons cb L ih =>
    by_cases h : cb.throws = true <;>
      simp [notifyStateChangeList, h, becameChiefOf, ih]

theorem stateList_filter_becameFollower (n o : TabState) (L : List CallbackSpec) :
    (notifyStateChangeList n o L).filterMap becameFollowerOf = [] := by
  induction L with
  | nil => simp [notifyStateChangeList]
  | cons cb L ih =>
    by_cases h : cb.throws = true <;>
      simp [notifyStateChangeList, h, becameFollowerOf, ih]

theorem stateList_filter_setup (n o : TabState) (L : List CallbackSpec) :
    (notifyStateChangeList n o L).filterMap setupRunId = [] := by
  induction L with
  | nil => simp [notifyStateChangeList]
  | cons cb L ih =>
    by_cases h : cb.throws = true <;>
      simp [notifyStateChangeList, h, setupRunId, ih]

theorem stateList_filter_cleanup (n o : TabState) (L : List CallbackSpec) :
    (notifyStateChangeList n o L).filterMap cleanupRunId = [] := by
  induction L with
  | nil => simp [notifyStateChangeList]
  | cons cb L ih =>
    by_cases h : cb.throws = true <;>
      simp [notifyStateChangeList, h, cleanupRunId, ih]

theorem chiefList_filter_becameChief (L : List CallbackSpec) :
    (notifyBecomeChiefList L).filterMap becameChiefOf = L.map (·.cbId) := by
  induction L with
  | nil => simp [notifyBecomeChiefList]
  | cons cb L ih =>
    by_cases h : cb.throws = true <;>
      simp [notifyBecomeChiefList, h, becameChiefOf, ih]

theorem chiefList_filter_stateChanged (L : List CallbackSpec) :
    (notifyBecomeChiefList L).filterMap stateChangedOf = [] := by
  induction L with
  | nil => simp [notifyBecomeChiefList]
  | cons cb L ih =>
    by_cases h : cb.throws = true <;>
      simp [notifyBecomeChiefList, h, stateChangedOf, ih]

theorem chiefList_filter_becameFollower (L : List CallbackSpec) :
    (notifyBecomeChiefList L).filterMap becameFollowerOf = [] := by
  induction L with
  | nil => simp [notifyBecomeChiefList]
  | cons cb L ih =>
    by_cases h : cb.throws = true <;>
      simp [notifyBecomeChiefList, h, becameFollowerOf, ih]

theorem chiefList_filter_setup (L : List CallbackSpec) :
    (notifyBecomeChiefList L).filterMap setupRunId = [] := by
  induction L with
  | nil => simp [notifyBecomeChiefList]
  | cons cb L ih =>
    by_cases h : cb.throws = true <;>
      simp [notifyBecomeChiefList, h, setupRunId, ih]

theorem chiefList_filter_cleanup (L : List CallbackSpec) :
    (notifyBecomeChiefList L).filterMap cleanupRunId = [] := by
  induction L with
  | nil => simp [notifyBecomeChiefList]
  | cons cb L ih =>
    by_cases h : cb.throws = true <;>
      simp [notifyBecomeChiefList, h, cleanupRunId, ih]

theorem followerList_filter_becameFollower (L : List CallbackSpec) :
    (notifyBecomeFollowerList L).filterMap becameFollowerOf = L.map (·.cbId) := by
  induction L with
  | nil => simp [notifyBecomeFollowerList]
  | cons cb L ih =>
    by_cases h : cb.throws = true <;>
      simp [notifyBecomeFollowerList, h, becameFollowerOf, ih]

theorem followerList_filter_stateChanged (L : List CallbackSpec) :
    (notifyBecomeFollowerList L).filterMap stateChangedOf = [] := by
  induction L with
  | nil => simp [notifyBecomeFollowerList]
  | cons cb L ih =>
    by_cases h : cb.throws = true <;>
      simp [notifyBecomeFollowerList, h, stateChangedOf, ih]

theorem followerList_filter_becameChief (L : List CallbackSpec) :
    (notifyBecomeFollowerList L).filterMap becameChiefOf = [] := by
  induction L with
  | nil => simp [notifyBecomeFollowerList]
  | cons cb L ih =>
    by_cases h : cb.throws = true <;>
      simp [notifyBecomeFollowerList, h, becameChiefOf, ih]

theorem followerList_filter_setup (L : List CallbackSpec) :
    (notifyBecomeFollowerList L).filterMap setupRunId = [] := by
  induction L with
  | nil => simp [notifyBecomeFollowerList]
  | cons cb L ih =>
    by_cases h : cb.throws = true <;>
      simp [notifyBecomeFollowerList, h, setupRunId, ih]

theorem followerList_filter_cleanup (L : List CallbackSpec) :
    (notifyBecomeFollowerList L).filterMap cleanupRunId = [] := by
  induction L with
  | nil => simp [notifyBecomeFollowerList]
  | cons cb L ih =>
    by_cases h : cb.throws = true <;>
      simp [notifyBecomeFollowerList, h, cleanupRunId, ih]

theorem taskEvents_filter_setup (ts : List TaskSpec) :
    (taskEvents ts).filterMap setupRunId = ts.map (·.tid) := by
  induction ts with
  | nil => simp [taskEvents]
  | cons t ts ih =>
    by_cases h : t.throws = true <;> simp [taskEvents, h, setupRunId, ih]

theorem taskEvents_filter_cleanup (ts : List TaskSpec) :
    (taskEvents ts).filterMap cleanupRunId = [] := by
  induction ts with
  | nil => simp [taskEvents]
  | cons t ts ih =>
    by_cases h : t.throws = true <;> simp [taskEvents, h, cleanupRunId, ih]

theorem cleanupEvents_filter_cleanup (L : List CleanupSpec) :
    (cleanupEvents L).filterMap cleanupRunId = L.map (·.cid) := by
  induction L with
  | nil => simp [cleanupEvents]
  | cons cl L ih =>
    by_cases h : cl.throws = true <;> simp [cleanupEvents, h, cleanupRunId, ih]

theorem cleanupEvents_filter_setup (L : List CleanupSpec) :
    (cleanupEvents L).filterMap setupRunId = [] := by
  induction L with
  | nil => simp [cleanupEvents]
  | cons cl L ih =>
    by_cases h : cl.throws = true <;> simp [cleanupEvents, h, setupRunId, ih]

theorem messageList_filter_msgCb (p : Nat) (L : List CallbackSpec) :
    (notifyMessageList p L).filterMap (msgCbIdFor p) = L.map (·.cbId) := by
  induction L with
  | nil => simp [notifyMessageList]
  | cons cb L ih =>
    by_cases h : cb.throws = true <;> simp [notifyMessageList, h, msgCbIdFor, ih]

/-- The events of `setState`, characterized. -/
theorem setState_snd (c : TabChief) (s : TabState) :
    (setState c s).2 =
      if c.state == s then []
      else
        notifyStateChangeList s c.state c.stateChangeCallbacks ++
          (if s == TabState.CHIEF && c.state != TabState.CHIEF then
             notifyBecomeChiefList c.becomeChiefCallbacks
           else if s == TabState.FOLLOWER && c.state == TabState.CHIEF then
             notifyBecomeFollowerList c.becomeFollowerCallbacks
           else []) := by
  unfold setState
  split
  next h => simp [h]
  next h => simp [h]

theorem setState_filter_stateChanged (c : TabChief) (s : TabState) (h : c.state ≠ s) :
    (setState c s).2.filterMap stateChangedOf =
      c.stateChangeCallbacks.map fun cb => (cb.cbId, s, c.state) := by
  rw [setState_snd, if_neg (by simpa using h), List.filterMap_append,
      stateList_filter_stateChanged]
  split
  · simp [chiefList_filter_stateChanged]
  · split <;> simp [followerList_filter_stateChanged]

theorem setState_filter_setup (c : TabChief) (s : TabState) :
    (setState c s).2.filterMap setupRunId = [] := by
  rw [setState_snd]
  split
  · simp
  · rw [List.filterMap_append, stateList_filter_setup]
    split
    · simp [chiefList_filter_setup]
    · split <;> simp [followerList_filter_setup]

theorem setState_filter_cleanup (c : TabChief) (s : TabState) :
    (setState c s).2.filterMap cleanupRunId = [] := by
  rw [setState_snd]
  split
  · simp
  · rw [List.filterMap_append, stateList_filter_cleanup]
    split
    · simp [chiefList_filter_cleanup]
    · split <;> simp [followerList_filter_cleanup]

end TabChief

namespace TabChief

theorem setState_filter_becameChief (c : TabChief) (s : TabState) :
    (setState c s).2.filterMap becameChiefOf =
      if s = TabState.CHIEF ∧ c.state ≠ TabState.CHIEF then
        c.becomeChiefCallbacks.map (·.cbId)
      else [] := by
  rw [setState_snd]
  by_cases hs : s = TabState.CHIEF
  · subst hs
    by_cases hc : c.state = TabState.CHIEF
    · simp [hc]
    · simp [hc, Ne.symm hc, List.filterMap_append, stateList_filter_becameChief,
            chiefList_filter_becameChief]
  · by_cases hcs : c.state = s
    · simp [hcs, hs]
    · simp only [beq_iff_eq, hcs, if_false, List.filterMap_append,
                 stateList_filter_becameChief, hs, false_and, List.nil_append]
      split
      next h => simp [hs] at h
      next h =>
        split
        next => exact followerList_filter_becameChief _
        next => simp

theorem setState_filter_becameFollower (c : TabChief) (s : TabState) :
    (setState c s).2.filterMap becameFollowerOf =
      if s = TabState.FOLLOWER ∧ c.state = TabState.CHIEF then
        c.becomeFollowerCallbacks.map (·.cbId)
      else [] := by
  rw [setState_snd]
  by_cases hs : s = TabState.FOLLOWER
  · subst hs
    by_cases hc : c.state = TabState.CHIEF
    · simp [hc, List.filterMap_append, stateList_filter_becameFollower,
            followerList_filter_becameFollower]
    · by_cases hcs : c.state = TabState.FOLLOWER
      · simp [hcs, hc]
      · simp [hcs, hc, List.filterMap_append, stateList_filter_becameFollower]
  · by_cases hcs : c.state = s
    · simp [hcs, hs]
    · simp only [beq_iff_eq, hcs, if_false, List.filterMap_append,
                 stateList_filter_becameFollower, hs, false_and, List.nil_append]
      split
      next => exact chiefList_filter_becameFollower _
      next =>
        split
        next h => simp [hs] at h
        next => simp

end TabChief

open TabChief in
/-- C8: state-change callbacks fire with (new, old), once per
subscriber, exactly when the new state differs from the old (`setState`
is a silent no-op otherwise); become-chief callbacks fire exactly when a
transition lands in `CHIEF` from any other state; become-follower
callbacks fire exactly when a transition lands in `FOLLOWER` from
`CHIEF`, hence never when entering `FOLLOWER` from `ELECTING`. -/
theorem observer_callback_spec (c : TabChief) (s : TabState) :
    (c.state = s → setState c s = (c, [])) ∧
    (c.state ≠ s →
      (setState c s).2.filterMap stateChangedOf =
        c.stateChangeCallbacks.map fun cb => (cb.cbId, s, c.state)) ∧
    ((setState c s).2.filterMap becameChiefOf =
      if s = TabState.CHIEF ∧ c.state ≠ TabState.CHIEF then
        c.becomeChiefCallbacks.map (·.cbId)
      else []) ∧
    ((setState c s).2.filterMap becameFollowerOf =
      if s = TabState.FOLLOWER ∧ c.state = TabState.CHIEF then
        c.becomeFollowerCallbacks.map (·.cbId)
      else []) := by
  refine ⟨fun h => ?_, fun h => setState_filter_stateChanged c s h,
    setState_filter_becameChief c s, setState_filter_becameFollower c s⟩
  unfold setState
  simp [h]

/-- A demonstration configuration: an `ELECTING` peer with one
subscriber on each observer list. -/
def observerDemo : TabChief :=
  { initTabChief "a" 100 with
      state := TabState.ELECTING
      channelOpen := true
      stateChangeCallbacks := [{ cbId := 5 }]
      becomeChiefCallbacks := [{ cbId := 7 }]
      becomeFollowerCallbacks := [{ cbId := 9 }] }

/-- Witness for C8 at a concrete transition `ELECTING → CHIEF`: the
state-change subscriber fires with (CHIEF, ELECTING), the become-chief
subscriber fires, the become-follower subscriber does not; and a no-op
transition `ELECTING → ELECTING` fires nothing. -/
theorem observer_callback_spec_witness :
    (TabChief.setState observerDemo TabState.CHIEF).2.filterMap stateChangedOf =
        [(5, TabState.CHIEF, TabState.ELECTING)] ∧
    (TabChief.setState observerDemo TabState.CHIEF).2.filterMap becameChiefOf = [7] ∧
    (TabChief.setState observerDemo TabState.CHIEF).2.filterMap becameFollowerOf = [] ∧
    TabChief.setState observerDemo TabState.ELECTING = (observerDemo, []) := by
  have h := observer_callback_spec observerDemo TabState.CHIEF
  have h2 := observer_callback_spec observerDemo TabState.ELECTING
  refine ⟨?_, ?_, ?_, h2.1 (by decide)⟩
  · have := h.2.1 (by decide)
    simpa [observerDemo] using this
  · have := h.2.2.1
    simpa [observerDemo] using this
  · have := h.2.2.2
    simpa [observerDemo] using this

namespace TabChief

/-- Rewriting of `shouldYieldTo` as a single boolean expression. -/
theorem shouldYieldTo_eq (c : TabChief) (oid : String) (ots : Nat) :
    shouldYieldTo c oid ots =
      (decide (ots < c.creationTimestamp) ||
        (decide (ots = c.creationTimestamp) && decide (oid < c.tabId))) := by
  unfold shouldYieldTo
  by_cases h : ots = c.creationTimestamp
  · simp [h]
  · simp [h]

end TabChief

open TabChief in
/-- C4: `shouldYieldTo(otherId, otherTimestamp)` returns true exactly
when the other timestamp is strictly smaller than the instance's
creation timestamp, or the timestamps are equal and the other id is
lexicographically smaller; consequently, for two peers with distinct
ids, exactly one of the two would yield to the other. -/
theorem shouldYieldTo_spec (a b : TabChief) (oid : String) (ots : Nat)
    (hid : a.tabId ≠ b.tabId) :
    (shouldYieldTo a oid ots = true ↔
      ots < a.creationTimestamp ∨ (ots = a.creationTimestamp ∧ oid < a.tabId)) ∧
    (shouldYieldTo a b.tabId b.creationTimestamp = true ↔
      shouldYieldTo b a.tabId a.creationTimestamp = false) := by
  constructor
  · simp [shouldYieldTo_eq]
  · simp only [shouldYieldTo_eq, Bool.or_eq_true, Bool.and_eq_true, decide_eq_true_eq,
               Bool.or_eq_false_iff, Bool.and_eq_false_iff, decide_eq_false_iff_not]
    constructor
    · rintro (h | ⟨heq, hlt⟩)
      · refine ⟨Nat.lt_asymm h, Or.inl fun heq' => ?_⟩
        omega
      · refine ⟨fun h' => by omega, Or.inr fun hlt' => lt_asymm hlt hlt'⟩
    · rintro ⟨h1, h2⟩
      rcases Nat.lt_trichotomy b.creationTimestamp a.creationTimestamp with h | h | h
      · exact Or.inl h
      · rcases lt_or_gt_of_ne hid with hi | hi
        · rcases h2 with h2 | h2
          · omega
          · exact absurd hi h2
        · exact Or.inr ⟨h, hi⟩
      · exact absurd h h1
  
/-- Two demonstration peers with distinct ids and timestamps. -/
def demoA : TabChief := initTabChief "a" 100

/-- Second demonstration peer. -/
def demoB : TabChief := initTabChief "b" 200

/-- Witness for C4: the younger peer `demoB` yields to the older peer
`demoA`, and `demoA` does not yield to `demoB`. -/
theorem shouldYieldTo_spec_witness :
    TabChief.shouldYieldTo demoB demoA.tabId demoA.creationTimestamp = true ∧
    TabChief.shouldYieldTo demoA demoB.tabId demoB.creationTimestamp = false :=
  ⟨(shouldYieldTo_spec demoB demoA demoA.tabId demoA.creationTimestamp
      (by decide)).1.mpr (by decide),
   by decide⟩

namespace TabChief

theorem messageList_filter_sent (p : Nat) (L : List CallbackSpec) :
    (notifyMessageList p L).filterMap sentOf = [] := by
  induction L with
  | nil => simp [notifyMessageList]
  | cons cb L ih =>
    by_cases h : cb.throws = true <;> simp [notifyMessageList, h, sentOf, ih]

theorem runTaskList_state (c : TabChief) (ts : List TaskSpec) :
    (runTaskList c ts).1.state = c.state := by
  rw [runTaskList_fst]

end TabChief

open TabChief in
/-- C9: an exception thrown by a task's setup or cleanup or by a
subscribed message callback is caught at that entry: every remaining
sibling still runs (each setup, cleanup and callback in the list is
invoked exactly once regardless of the `throws` flags), and the state
machine's state after the fan-out is the same as if no exception had
been thrown. -/
theorem fault_isolation_spec (c : TabChief) (ts : List TaskSpec) (cls : List CleanupSpec)
    (p : Nat) (cbs : List CallbackSpec) :
    ((runTaskList c ts).2.filterMap setupRunId = ts.map (·.tid)) ∧
    ((runTaskList c ts).1.state =
      (runTaskList c (ts.map fun t => { t with throws := false })).1.state) ∧
    ((runCleanups { c with activeCleanups := cls }).1 =
      (runCleanups { c with activeCleanups := cls.map fun cl => { cl with throws := false } }).1) ∧
    ((cleanupEvents cls).filterMap cleanupRunId = cls.map (·.cid)) ∧
    ((notifyMessageList p cbs).filterMap (msgCbIdFor p) = cbs.map (·.cbId)) := by
  refine ⟨?_, ?_, ?_, cleanupEvents_filter_cleanup cls, messageList_filter_msgCb p cbs⟩
  · rw [runTaskList_snd, taskEvents_filter_setup]
  · rw [runTaskList_state, runTaskList_state]
  · simp [runCleanups]

namespace TabChief

theorem declareVictory_snd (c : TabChief) (now : Nat) :
    (declareVictory c now).2 =
      (setState { c with electionTimer := none } TabState.CHIEF).2 ++
        (if c.channelOpen then
          [Event.sent { type := MessageType.VICTORY, senderId := c.tabId, timestamp := now }]
        else []) ++
        (if c.channelOpen then
          [Event.sent { type := MessageType.HEARTBEAT, senderId := c.tabId, timestamp := now }]
        else []) ++
        taskEvents c.exclusiveTasks := by
  unfold declareVictory
  simp [clearElectionTimer, setState_fst, startHeartbeat, stopHeartbeat, sendHeartbeat,
        broadcast, runAllTasks, runTaskList_snd]

theorem sentIf_filter_setup (b : Bool) (m : ChannelMessage) :
    (if b then [Event.sent m] else [] : List Event).filterMap setupRunId = [] := by
  cases b <;> simp [setupRunId]

theorem sentIf_filter_cleanup (b : Bool) (m : ChannelMessage) :
    (if b then [Event.sent m] else [] : List Event).filterMap cleanupRunId = [] := by
  cases b <;> simp [cleanupRunId]

theorem stop_fst (c : TabChief) (now : Nat) (h1 : c.state ≠ TabState.STOPPED)
    (h2 : c.state ≠ TabState.IDLE) :
    (stop c now).1 =
      { c with channelOpen := false, state := TabState.STOPPED, currentChiefId := none,
               heartbeatTimer := false, electionTimer := none,
               electionDebounceTimer := false, activeCleanups := [],
               beforeUnloadBound := false } := by
  unfold stop
  simp [h1, h2, runCleanups, clearTimers, stopHeartbeat, clearElectionTimer, setState_fst]

theorem stop_snd (c : TabChief) (now : Nat) (h1 : c.state ≠ TabState.STOPPED)
    (h2 : c.state ≠ TabState.IDLE) :
    (stop c now).2 =
      (if c.state == TabState.CHIEF then
        (if c.channelOpen then
          [Event.sent { type := MessageType.SHUTDOWN, senderId := c.tabId, timestamp := now }]
        else [])
      else []) ++
        cleanupEvents c.activeCleanups ++
        notifyStateChangeList TabState.STOPPED c.state c.stateChangeCallbacks := by
  unfold stop
  simp [h1, h2, broadcast, runCleanups, clearTimers, stopHeartbeat, clearElectionTimer,
        setState_snd]

end TabChief

namespace TabChief

theorem declareVictory_filter_setup (c : TabChief) (now : Nat) :
    (declareVictory c now).2.filterMap setupRunId = c.exclusiveTasks.map (·.tid) := by
  rw [declareVictory_snd, List.filterMap_append, List.filterMap_append, List.filterMap_append,
      setState_filter_setup, sentIf_filter_setup, sentIf_filter_setup, taskEvents_filter_setup]
  simp

end TabChief

open TabChief in
/-- C5: `declareVictory` (the only transition into `CHIEF`) runs every
registered exclusive task's setup exactly once and preserves the
registrations; `runExclusive` while already `CHIEF` runs the new task's
setup synchronously exactly once, and otherwise only registers it; a
loss of `CHIEF` (`becomeFollower` from `CHIEF`) and `stop()` run every
active cleanup exactly once, clearing the active list but keeping the
registrations, so re-acquiring `CHIEF` re-runs every registered
setup. -/
theorem exclusive_task_lifecycle (c : TabChief) (t : TaskSpec) (now : Nat) (chiefId : String) :
    ((declareVictory c now).2.filterMap setupRunId = c.exclusiveTasks.map (·.tid)) ∧
    ((declareVictory c now).1.exclusiveTasks = c.exclusiveTasks) ∧
    (c.state = TabState.CHIEF →
      (runExclusive c t).2.filterMap setupRunId = [t.tid]) ∧
    (c.state ≠ TabState.CHIEF →
      runExclusive c t = ({ c with exclusiveTasks := c.exclusiveTasks ++ [t] }, [])) ∧
    ((runExclusive c t).1.exclusiveTasks = c.exclusiveTasks ++ [t]) ∧
    (c.state = TabState.CHIEF →
      (becomeFollower c chiefId).2.filterMap cleanupRunId = c.activeCleanups.map (·.cid) ∧
      (becomeFollower c chiefId).1.activeCleanups = [] ∧
      (becomeFollower c chiefId).1.exclusiveTasks = c.exclusiveTasks) ∧
    (c.state ≠ TabState.IDLE → c.state ≠ TabState.STOPPED →
      (stop c now).2.filterMap cleanupRunId = c.activeCleanups.map (·.cid) ∧
      (stop c now).1.exclusiveTasks = c.exclusiveTasks) ∧
    ((declareVictory (becomeFollower c chiefId).1 now).2.filterMap setupRunId =
      c.exclusiveTasks.map (·.tid)) := by
  refine ⟨declareVictory_filter_setup c now, ?_, ?_, ?_, ?_, ?_, ?_, ?_⟩
  · rw [declareVictory_fst]
  · intro h
    unfold runExclusive
    simp only [h, beq_self_eq_true, if_true, if_pos]
    unfold runTask
    by_cases ht : t.throws = true
    · simp [ht, setupRunId]
    · simp only [ht]
      cases t.cleanup <;> simp [setupRunId]
  · intro h
    unfold runExclusive
    simp [h]
  · by_cases h : c.state = TabState.CHIEF
    · unfold runExclusive runTask
      by_cases ht : t.throws = true
      · simp [h, ht]
      · simp only [h, ht]
        cases t.cleanup <;> simp
    · simp [runExclusive, h]
  · intro h
    refine ⟨?_, ?_, ?_⟩
    · rw [becomeFollower_snd, List.filterMap_append, setState_filter_cleanup]
      simp only [h, beq_self_eq_true, if_true, List.nil_append, if_pos]
      exact cleanupEvents_filter_cleanup _
    · rw [becomeFollower_fst]
      simp [h]
    · rw [becomeFollower_fst]
  · intro h1 h2
    constructor
    · rw [stop_snd c now h2 h1, List.filterMap_append, List.filterMap_append,
          cleanupEvents_filter_cleanup, stateList_filter_cleanup]
      split
      next => rw [sentIf_filter_cleanup]; simp
      next => simp
    · rw [stop_fst c now h2 h1]
  · rw [becomeFollower_fst]
    simpa using declareVictory_filter_setup
      { c with state := TabState.FOLLOWER, currentChiefId := some chiefId,
               heartbeatTimer := false, electionTimer := some TimerKind.liveness,
               activeCleanups :=
                 if c.state == TabState.CHIEF then [] else c.activeCleanups } now

/-- A `CHIEF` configuration with one registered task and one active
cleanup, for the C5 and C7 witnesses. -/
def chiefDemo : TabChief :=
  { initTabChief "a" 100 with
      state := TabState.CHIEF
      channelOpen := true
      currentChiefId := some "a"
      heartbeatTimer := true
      exclusiveTasks := [{ tid := 4, cleanup := some { cid := 11 } }]
      activeCleanups := [{ cid := 11 }] }

/-- Witness for C5 at `chiefDemo`: losing leadership runs cleanup 11
exactly once and keeps task 4 registered, and re-acquiring `CHIEF`
re-runs task 4's setup exactly once. -/
theorem exclusive_task_lifecycle_witness :
    (TabChief.becomeFollower chiefDemo "b").2.filterMap cleanupRunId = [11] ∧
    (TabChief.becomeFollower chiefDemo "b").1.exclusiveTasks = chiefDemo.exclusiveTasks ∧
    (TabChief.declareVictory (TabChief.becomeFollower chiefDemo "b").1 900).2.filterMap
      setupRunId = [4] := by
  have h := exclusive_task_lifecycle chiefDemo { tid := 4, cleanup := some { cid := 11 } }
    900 "b"
  have h6 := h.2.2.2.2.2.1 (by decide)
  have h8 := h.2.2.2.2.2.2.2
  exact ⟨by simpa using h6.1, h6.2.2, by simpa using h8⟩

open TabChief in
/-- C7: `start()` in any state other than `IDLE`/`STOPPED` and `stop()`
in `IDLE`/`STOPPED` return the instance unchanged and emit no events
(no broadcast, no callbacks, no cleanups); calling `stop()` twice in a
row from a started state ends in `STOPPED`, the second call is a
complete no-op, and each active cleanup is invoked exactly once across
the two calls. -/
theorem start_stop_idempotence (c : TabChief) (now now2 : Nat) :
    (c.state ≠ TabState.IDLE → c.state ≠ TabState.STOPPED →
      start c = (c, []) ∧
      (stop c now).1.state = TabState.STOPPED ∧
      stop (stop c now).1 now2 = ((stop c now).1, []) ∧
      (stop c now).2.filterMap cleanupRunId = c.activeCleanups.map (·.cid)) ∧
    (c.state = TabState.IDLE ∨ c.state = TabState.STOPPED →
      stop c now = (c, [])) := by
  constructor
  · intro h1 h2
    have hs := stop_fst c now h2 h1
    refine ⟨?_, ?_, ?_, ?_⟩
    · unfold start
      simp [h1, h2]
    · rw [hs]
    · rw [hs]
      unfold stop
      simp
    · rw [stop_snd c now h2 h1, List.filterMap_append, List.filterMap_append,
          cleanupEvents_filter_cleanup, stateList_filter_cleanup]
      split
      next => rw [sentIf_filter_cleanup]; simp
      next => simp
  · intro h
    unfold stop
    rcases h with h | h <;> simp [h]

/-- A started `FOLLOWER` configuration with one active cleanup, for the
C7 witness. -/
def followerDemo : TabChief :=
  { initTabChief "a" 100 with
      state := TabState.FOLLOWER
      channelOpen := true
      currentChiefId := some "b"
      electionTimer := some TimerKind.liveness
      activeCleanups := [{ cid := 11 }] }

/-- Witness for C7 at `followerDemo`: `start` is a no-op while started,
the first `stop` lands in `STOPPED` running cleanup 11 once, the second
`stop` is a complete no-op, and `stop` on a fresh (`IDLE`) instance is a
complete no-op. -/
theorem start_stop_idempotence_witness :
    TabChief.start followerDemo = (followerDemo, []) ∧
    (TabChief.stop followerDemo 500).1.state = TabState.STOPPED ∧
    TabChief.stop (TabChief.stop followerDemo 500).1 600 =
      ((TabChief.stop followerDemo 500).1, []) ∧
    (TabChief.stop followerDemo 500).2.filterMap cleanupRunId = [11] ∧
    TabChief.stop (initTabChief "i" 50) 500 = (initTabChief "i" 50, []) := by
  have h := (start_stop_idempotence followerDemo 500 600).1 (by decide) (by decide)
  have h2 := (start_stop_idempotence (initTabChief "i" 50) 500 600).2 (Or.inl rfl)
  exact ⟨h.1, h.2.1, h.2.2.1, by simpa using h.2.2.2, h2⟩

open TabChief in
/-- C6: on an `ELECTION` message, a receiver that does not yield to the
sender (tie-break on the carried sender timestamp) responds `ALIVE`
carrying its own creation timestamp and, unless it is `CHIEF`, starts
its own election (setting `ELECTING`, arming the victory timer and
broadcasting `ELECTION`, when the debounce window is not armed); a
receiver that must yield sends nothing and is unchanged. -/
theorem election_request_spec (c : TabChief) (senderId : String) (senderTs : Nat)
    (hopen : c.channelOpen = true) :
    (shouldYieldTo c senderId senderTs = true →
      handleElectionRequest c senderId senderTs = (c, [])) ∧
    (shouldYieldTo c senderId senderTs = false →
      (handleElectionRequest c senderId senderTs).2.head? =
        some (Event.sent { type := MessageType.ALIVE, senderId := c.tabId,
                           timestamp := c.creationTimestamp }) ∧
      (c.state = TabState.CHIEF →
        handleElectionRequest c senderId senderTs =
          (c, [Event.sent { type := MessageType.ALIVE, senderId := c.tabId,
                            timestamp := c.creationTimestamp }])) ∧
      (c.state ≠ TabState.CHIEF → c.electionDebounceTimer = false →
        (handleElectionRequest c senderId senderTs).1.state = TabState.ELECTING ∧
        (handleElectionRequest c senderId senderTs).1.electionTimer =
          some TimerKind.victory ∧
        Event.sent { type := MessageType.ELECTION, senderId := c.tabId,
                     timestamp := c.creationTimestamp } ∈
          (handleElectionRequest c senderId senderTs).2)) := by
  constructor
  · intro h
    unfold handleElectionRequest
    simp [h]
  · intro h
    refine ⟨?_, ?_, ?_⟩
    · unfold handleElectionRequest
      simp only [h, Bool.not_false, if_true, broadcast, hopen, if_pos]
      split <;> simp
    · intro hc
      unfold handleElectionRequest
      simp [h, hc, broadcast, hopen]
    · intro hc hdeb
      have hne : (c.state != TabState.CHIEF) = true := by simp [hc]
      unfold handleElectionRequest
      simp only [h, Bool.not_false, if_true, hne, broadcast, hopen, if_pos]
      refine ⟨?_, ?_, ?_⟩
      · rw [startElection_fst]
        simp [hdeb]
      · rw [startElection_fst]
        simp [hdeb]
      · refine List.mem_append_right _ ?_
        rw [startElection_snd]
        simp [hdeb, hopen]

/-- Witness for C6 at `followerDemo` (a started `FOLLOWER`, timestamp
100, id "a"): a younger challenger (timestamp 200) draws an `ALIVE`
response and a counter-election, while an older challenger (timestamp
50) draws silence. -/
theorem election_request_spec_witness :
    (TabChief.handleElectionRequest followerDemo "b" 200).2.head? =
      some (Event.sent { type := MessageType.ALIVE, senderId := "a", timestamp := 100 }) ∧
    (TabChief.handleElectionRequest followerDemo "b" 200).1.state = TabState.ELECTING ∧
    TabChief.handleElectionRequest followerDemo "b" 50 = (followerDemo, []) := by
  have h := (election_request_spec followerDemo "b" 200 (by decide)).2 (by decide)
  have h2 := (election_request_spec followerDemo "b" 50 (by decide)).1 (by decide)
  exact ⟨by simpa using h.1, (h.2.2 (by decide) (by decide)).1, h2⟩

open TabChief in
/-- C1 (amended) and the substance of the fixed conflict rule: a peer in
`CHIEF` that receives another chief's `VICTORY` or `HEARTBEAT` steps
down only when the tie-break applied to the sender's id and the
receiver's own clock reading at receipt says to yield; whenever each
receiver's clock reading is strictly greater than its own creation
timestamp — the typical case, since receipt happens after construction —
neither of two simultaneous chiefs yields, both remain `CHIEF`, and the
`VICTORY` conflict is answered by a re-assertion rather than a
step-down. -/
theorem chief_conflict_tiebreak (a b : TabChief) (nowA nowB : Nat)
    (ha : a.state = TabState.CHIEF) (hb : b.state = TabState.CHIEF)
    (hA : a.creationTimestamp < nowA) (hB : b.creationTimestamp < nowB)
    (hba : b.tabId ≠ a.tabId) (hab : a.tabId ≠ b.tabId) :
    shouldYieldTo a b.tabId nowA = false ∧
    shouldYieldTo b a.tabId nowB = false ∧
    (handleVictory a b.tabId nowA).1.state = TabState.CHIEF ∧
    (handleVictory b a.tabId nowB).1.state = TabState.CHIEF ∧
    handleHeartbeat a b.tabId nowA = (a, []) ∧
    handleHeartbeat b a.tabId nowB = (b, []) := by
  have h1 : shouldYieldTo a b.tabId nowA = false := by
    unfold shouldYieldTo
    have hne : nowA ≠ a.creationTimestamp := by omega
    simp only [ne_eq, hne, not_false_eq_true, if_pos, decide_eq_false_iff_not, not_lt]
    omega
  have h2 : shouldYieldTo b a.tabId nowB = false := by
    unfold shouldYieldTo
    have hne : nowB ≠ b.creationTimestamp := by omega
    simp only [ne_eq, hne, not_false_eq_true, if_pos, decide_eq_false_iff_not, not_lt]
    omega
  refine ⟨h1, h2, ?_, ?_, ?_, ?_⟩
  · unfold handleVictory
    simp [hba, ha, h1]
  · unfold handleVictory
    simp [hab, hb, h2]
  · unfold handleHeartbeat
    simp [hba, ha, h1]
  · unfold handleHeartbeat
    simp [hab, hb, h2]

/-- A second `CHIEF` configuration, younger than `chiefDemo`. -/
def chiefDemoB : TabChief :=
  { initTabChief "b" 200 with
      state := TabState.CHIEF
      channelOpen := true
      currentChiefId := some "b"
      heartbeatTimer := true }

/-- Witness for the amended C1: two concrete simultaneous chiefs
exchanging `VICTORY` at clock reading 3300 both remain `CHIEF`. -/
theorem chief_conflict_tiebreak_witness :
    (TabChief.handleVictory chiefDemo "b" 3300).1.state = TabState.CHIEF ∧
    (TabChief.handleVictory chiefDemoB "a" 3300).1.state = TabState.CHIEF := by
  have h := chief_conflict_tiebreak chiefDemo chiefDemoB 3300 3300 (by decide) (by decide)
    (by decide) (by decide) (by decide) (by decide)
  exact ⟨by simpa using h.2.2.1, by simpa using h.2.2.2.1⟩

open TabChief in
/-- C2 (amended): an instance in `CHIEF` receiving a `HEARTBEAT` or
`VICTORY` from another peer steps down to `FOLLOWER` if and only if the
tie-break applied to the sender's id and the receiver's own current
clock reading at receipt says it must yield; in the non-yield case it
re-asserts leadership by rebroadcasting `VICTORY` only for a `VICTORY`
message, while a non-yield `HEARTBEAT` is ignored with no rebroadcast
and no state change. -/
theorem chief_conflict_stepdown_spec (c : TabChief) (senderId : String) (now : Nat)
    (hchief : c.state = TabState.CHIEF) (hne : senderId ≠ c.tabId)
    (hopen : c.channelOpen = true) :
    ((handleHeartbeat c senderId now).1.state =
      if shouldYieldTo c senderId now then TabState.FOLLOWER else TabState.CHIEF) ∧
    ((handleVictory c senderId now).1.state =
      if shouldYieldTo c senderId now then TabState.FOLLOWER else TabState.CHIEF) ∧
    (shouldYieldTo c senderId now = true →
      (handleHeartbeat c senderId now).1.currentChiefId = some senderId ∧
      (handleVictory c senderId now).1.currentChiefId = some senderId) ∧
    (shouldYieldTo c senderId now = false →
      handleHeartbeat c senderId now = (c, []) ∧
      handleVictory c senderId now =
        (c, [Event.sent { type := MessageType.VICTORY, senderId := c.tabId,
                          timestamp := now }])) := by
  refine ⟨?_, ?_, fun hy => ⟨?_, ?_⟩, fun hn => ⟨?_, ?_⟩⟩
  · unfold handleHeartbeat
    by_cases hy : shouldYieldTo c senderId now = true
    · simp [hchief, hne, hy, becomeFollower_fst]
    · simp only [Bool.not_eq_true] at hy
      simp [hchief, hne, hy]
  · unfold handleVictory
    by_cases hy : shouldYieldTo c senderId now = true
    · simp [hchief, hne, hy, becomeFollower_fst]
    · simp only [Bool.not_eq_true] at hy
      simp [hchief, hne, hy]
  · unfold handleHeartbeat
    simp [hchief, hne, hy, becomeFollower_fst]
  · unfold handleVictory
    simp [hchief, hne, hy, becomeFollower_fst]
  · unfold handleHeartbeat
    simp [hchief, hne, hn]
  · unfold handleVictory
    simp [hchief, hne, hn, broadcast, hopen]

/-- Witness for C2 at `chiefDemo` (a `CHIEF` created at 100): a
challenger claiming at clock reading 500 loses the tie-break, so the
chief neither steps down on the `HEARTBEAT` (and sends nothing) nor on
the `VICTORY` (which it answers by rebroadcasting `VICTORY`); a
challenger compared at clock reading 40 (before the chief's creation)
wins, and the chief steps down. -/
theorem chief_conflict_stepdown_spec_witness :
    TabChief.handleHeartbeat chiefDemo "b" 500 = (chiefDemo, []) ∧
    TabChief.handleVictory chiefDemo "b" 500 =
      (chiefDemo, [Event.sent { type := MessageType.VICTORY, senderId := "a",
                                timestamp := 500 }]) ∧
    (TabChief.handleHeartbeat chiefDemo "b" 40).1.state = TabState.FOLLOWER := by
  have h := chief_conflict_stepdown_spec chiefDemo "b" 500 (by decide) (by decide) (by decide)
  have h2 := chief_conflict_stepdown_spec chiefDemo "b" 40 (by decide) (by decide) (by decide)
  have hn := h.2.2.2 (by decide)
  refine ⟨hn.1, by simpa using hn.2, ?_⟩
  have := h2.1
  simpa using this

/-- Counterexample to C2 as stated: in the non-yield case the chief
re-asserts by rebroadcasting `VICTORY` only for a `VICTORY` message; a
non-yield `HEARTBEAT` received while `CHIEF` produces no events at all —
no `VICTORY` is rebroadcast, contradicting the claim that every
non-yield case re-asserts leadership. -/
theorem chief_heartbeat_no_reassert :
    TabChief.shouldYieldTo chiefDemo "b" 500 = false ∧
    TabChief.handleHeartbeat chiefDemo "b" 500 = (chiefDemo, []) := by
  decide

open TabChief in
/-- C3 (amended): an instance in `ELECTING` transitions to `FOLLOWER` on
`ALIVE` exactly when it must yield to the responder under the tie-break
on the carried timestamp (an `ALIVE` from an out-ranked peer leaves it
unchanged); but a `HEARTBEAT` or `VICTORY` from any other peer is
accepted unconditionally by a non-`CHIEF` instance — it adopts the
sender as chief and re-arms the liveness timer regardless of rank. -/
theorem nonchief_accept_spec (c : TabChief) (senderId : String) (sts now : Nat)
    (hne : senderId ≠ c.tabId) :
    (c.state = TabState.ELECTING →
      (shouldYieldTo c senderId sts = true →
        (handleAliveResponse c senderId sts).1.state = TabState.FOLLOWER ∧
        (handleAliveResponse c senderId sts).1.electionTimer = some TimerKind.liveness) ∧
      (shouldYieldTo c senderId sts = false →
        handleAliveResponse c senderId sts = (c, []))) ∧
    (c.state ≠ TabState.CHIEF →
      (handleVictory c senderId now).1.state = TabState.FOLLOWER ∧
      (handleVictory c senderId now).1.currentChiefId = some senderId ∧
      (handleVictory c senderId now).1.electionTimer = some TimerKind.liveness) ∧
    ((c.state = TabState.ELECTING ∨ c.state = TabState.FOLLOWER) →
      (handleHeartbeat c senderId now).1.state = TabState.FOLLOWER ∧
      (handleHeartbeat c senderId now).1.currentChiefId = some senderId ∧
      (handleHeartbeat c senderId now).1.electionTimer = some TimerKind.liveness) := by
  refine ⟨fun hE => ⟨fun hy => ?_, fun hn => ?_⟩, fun hnc => ?_, fun hsf => ?_⟩
  · unfold handleAliveResponse
    simp [hE, hy, setState_fst, clearElectionTimer, resetElectionTimeout]
  · unfold handleAliveResponse
    simp [hE, hn]
  · unfold handleVictory
    simp [hne, hnc, becomeFollower_fst]
  · have hnc : c.state ≠ TabState.CHIEF := by
      rcases hsf with h | h <;> simp [h]
    unfold handleHeartbeat
    rcases hsf with h | h <;> simp [h, hne, hnc, becomeFollower_fst]

/-- An `ELECTING` configuration (timestamp 100, id "a") for the C3
counterexample and witness. -/
def electingDemo : TabChief :=
  { initTabChief "a" 100 with
      state := TabState.ELECTING
      channelOpen := true
      electionTimer := some TimerKind.victory
      electionDebounceTimer := true }

/-- Witness for C3 at `electingDemo`: an `ALIVE` from an older peer
(timestamp 50) makes it concede to `FOLLOWER`, an `ALIVE` from a younger
peer (timestamp 200) leaves it unchanged, and a `VICTORY` from any other
peer is adopted unconditionally. -/
theorem nonchief_accept_spec_witness :
    (TabChief.handleAliveResponse electingDemo "b" 50).1.state = TabState.FOLLOWER ∧
    TabChief.handleAliveResponse electingDemo "b" 200 = (electingDemo, []) ∧
    (TabChief.handleVictory electingDemo "z" 3300).1.currentChiefId = some "z" := by
  have h := nonchief_accept_spec electingDemo "b" 50 3300 (by decide)
  have h2 := nonchief_accept_spec electingDemo "b" 200 3300 (by decide)
  have h3 := nonchief_accept_spec electingDemo "z" 3300 3300 (by decide)
  exact ⟨((h.1 rfl).1 (by decide)).1, (h2.1 rfl).2 (by decide),
    (h3.2.1 (by decide)).2.1⟩

/-- Counterexample to C3 as stated: `electingDemo` (id "a", timestamp
100) out-ranks the sender "z" under the tie-break at every timestamp in
play, yet on receiving "z"'s `VICTORY` it still transitions
`ELECTING → FOLLOWER` and adopts "z" as its tracked chief — the code
consults no tie-break at all on `VICTORY`/`HEARTBEAT` for non-chief
receivers, contradicting "only from a peer it does not out-rank" and
"state and tracked chief are unchanged". -/
theorem electing_adopts_outranked_victory :
    TabChief.shouldYieldTo electingDemo "z" 3300 = false ∧
    TabChief.shouldYieldTo electingDemo "z" 100 = false ∧
    (TabChief.handleVictory electingDemo "z" 3300).1.state = TabState.FOLLOWER ∧
    (TabChief.handleVictory electingDemo "z" 3300).1.currentChiefId = some "z" := by
  decide

/-- Two peers on one channel: peer 0 created at 100 with id "a", peer 1
created at 200 with id "b"; the clock starts at 300. -/
def demoWorld : World :=
  { now := 300,
    peers := [ { chief := initTabChief "a" 100, inbox := [] },
               { chief := initTabChief "b" 200, inbox := [] } ] }

/-- Both peers start, their mutual `ELECTION` messages stay in flight
(the transport may delay arbitrarily), and both election timers fire, so
both peers declare victory. -/
def conflictOpening : List WEvent :=
  [WEvent.startPeer 0, WEvent.startPeer 1, WEvent.tick 3000,
   WEvent.fireElection 0, WEvent.fireElection 1]

/-- The full conflict-resolution exchange after the double victory:
every in-flight message — each chief's `VICTORY` and `HEARTBEAT`, the
pending `ELECTION`, and the answers they provoke — is delivered. -/
def conflictTrace : List WEvent :=
  conflictOpening ++
  [WEvent.deliver 0, WEvent.deliver 0, WEvent.deliver 0,
   WEvent.deliver 1, WEvent.deliver 1, WEvent.deliver 1, WEvent.deliver 1]

/-- Counterexample to C1: a reachable two-peer execution in which both
peers are simultaneously `CHIEF` (both declared victory before either
received the other's messages), and after the complete conflict-
resolution exchange — each chief receives the other's `VICTORY` and
`HEARTBEAT` at a clock reading later than both creation timestamps —
neither peer steps down: both still report `isChief`, no
election/liveness timer is pending on either peer, and the only traffic
left in flight is the endlessly regenerated `VICTORY` re-assertions, so
the exchange does not end with exactly one peer stepping down to
`FOLLOWER` and no settled configuration with a unique chief is ever
reached. -/
theorem conflict_keeps_two_chiefs :
    ((worldExec demoWorld conflictOpening).peers.map fun p => p.chief.isChief) =
      [true, true] ∧
    ((worldExec demoWorld conflictTrace).peers.map fun p => p.chief.isChief) =
      [true, true] ∧
    ((worldExec demoWorld conflictTrace).peers.map fun p => p.chief.electionTimer.isNone) =
      [true, true] ∧
    ((worldExec demoWorld conflictTrace).peers.map fun p =>
      p.inbox.all fun m => m.type == MessageType.VICTORY) = [true, true] := by
  decide

/-! ## Reachability invariant

A single instance, driven by any sequence of public calls, gated message
deliveries (the transport only delivers while the channel is open) and
timer firings, keeps its channel open exactly while it is in a live
state, and holds no timers while `IDLE`/`STOPPED`. -/

/-- The channel/timer invariant of a single instance. -/
def wellFormed (c : TabChief) : Prop :=
  if c.state = TabState.IDLE ∨ c.state = TabState.STOPPED then
    c.channelOpen = false ∧ c.electionTimer = none ∧ c.heartbeatTimer = false ∧
      c.electionDebounceTimer = false
  else c.channelOpen = true

namespace TabChief

theorem wellFormed_of_fields (c c' : TabChief) (h : wellFormed c)
    (hs : c'.state = c.state) (ho : c'.channelOpen = c.channelOpen)
    (he : c'.electionTimer = c.electionTimer) (hh : c'.heartbeatTimer = c.heartbeatTimer)
    (hd : c'.electionDebounceTimer = c.electionDebounceTimer) : wellFormed c' := by
  unfold wellFormed at *
  rw [hs, ho, he, hh, hd]
  exact h

theorem wellFormed_open (c : TabChief) (h : wellFormed c) (h1 : c.state ≠ TabState.IDLE)
    (h2 : c.state ≠ TabState.STOPPED) : c.channelOpen = true := by
  unfold wellFormed at h
  simpa [h1, h2] using h

theorem wellFormed_live (c : TabChief) (h1 : c.state ≠ TabState.IDLE)
    (h2 : c.state ≠ TabState.STOPPED) (ho : c.channelOpen = true) : wellFormed c := by
  unfold wellFormed
  simp [h1, h2, ho]

theorem wellFormed_becomeFollower (c : TabChief) (chiefId : String)
    (ho : c.channelOpen = true) : wellFormed (becomeFollower c chiefId).1 := by
  rw [becomeFollower_fst]
  unfold wellFormed
  simp [ho]

theorem wellFormed_startElection (c : TabChief) (h : wellFormed c)
    (ho : c.channelOpen = true) : wellFormed (startElection c).1 := by
  rw [startElection_fst]
  split
  · exact h
  · unfold wellFormed
    simp [ho]

theorem wellFormed_declareVictory (c : TabChief) (now : Nat)
    (ho : c.channelOpen = true) : wellFormed (declareVictory c now).1 := by
  rw [declareVictory_fst]
  unfold wellFormed
  simp [ho]

theorem wellFormed_handleHeartbeat (c : TabChief) (sid : String) (now : Nat)
    (h : wellFormed c) (ho : c.channelOpen = true) :
    wellFormed (handleHeartbeat c sid now).1 := by
  unfold handleHeartbeat
  split
  · split
    · exact wellFormed_becomeFollower c sid ho
    · exact h
  · split
    · exact wellFormed_becomeFollower _ sid (by simpa using ho)
    · exact h

theorem wellFormed_handleElectionRequest (c : TabChief) (sid : String) (sts : Nat)
    (h : wellFormed c) (ho : c.channelOpen = true) :
    wellFormed (handleElectionRequest c sid sts).1 := by
  unfold handleElectionRequest
  split
  · split
    · exact wellFormed_startElection c h ho
    · exact h
  · exact h

theorem wellFormed_handleAliveResponse (c : TabChief) (sid : String) (sts : Nat)
    (h : wellFormed c) (ho : c.channelOpen = true) :
    wellFormed (handleAliveResponse c sid sts).1 := by
  unfold handleAliveResponse
  split
  · split
    · simp only [setState_fst, clearElectionTimer, resetElectionTimeout]
      unfold wellFormed
      simp [ho]
    · exact h
  · exact h

theorem wellFormed_handleVictory (c : TabChief) (sid : String) (now : Nat)
    (h : wellFormed c) (ho : c.channelOpen = true) :
    wellFormed (handleVictory c sid now).1 := by
  unfold handleVictory
  split
  · exact h
  · split
    · split
      · exact wellFormed_becomeFollower c sid ho
      · exact h
    · exact wellFormed_becomeFollower c sid ho

theorem wellFormed_handleShutdown (c : TabChief) (sid : String)
    (h : wellFormed c) (ho : c.channelOpen = true) :
    wellFormed (handleShutdown c sid).1 := by
  unfold handleShutdown
  split
  · refine wellFormed_startElection _ ?_ (by simpa using ho)
    exact wellFormed_of_fields c _ h rfl rfl rfl rfl rfl
  · exact h

theorem wellFormed_handleMessage (c : TabChief) (m : ChannelMessage) (now : Nat)
    (h : wellFormed c) (ho : c.channelOpen = true) :
    wellFormed (handleMessage c m now).1 := by
  unfold handleMessage
  split
  · exact h
  · cases m.type
    case HEARTBEAT => exact wellFormed_handleHeartbeat c m.senderId now h ho
    case ELECTION => exact wellFormed_handleElectionRequest c m.senderId m.timestamp h ho
    case ALIVE => exact wellFormed_handleAliveResponse c m.senderId m.timestamp h ho
    case VICTORY => exact wellFormed_handleVictory c m.senderId now h ho
    case DATA => exact h
    case SHUTDOWN => exact wellFormed_handleShutdown c m.senderId h ho

theorem wellFormed_start (c : TabChief) (h : wellFormed c) : wellFormed (start c).1 := by
  unfold start
  split
  · exact h
  next hguard =>
    have hdead : c.state = TabState.IDLE ∨ c.state = TabState.STOPPED := by
      rcases Decidable.em (c.state = TabState.IDLE) with hI | hI
      · exact Or.inl hI
      · rcases Decidable.em (c.state = TabState.STOPPED) with hS | hS
        · exact Or.inr hS
        · exact absurd (by simp [hI, hS]) hguard
    have hfields := by
      unfold wellFormed at h
      exact (if_pos hdead ▸ h : _)
    rw [startElection_fst]
    have hdeb : c.electionDebounceTimer = false := by
      unfold wellFormed at h
      simp [hdead] at h
      exact h.2.2.2
    simp only [hdeb, Bool.false_eq_true, if_false, if_neg]
    unfold wellFormed
    simp

theorem wellFormed_stop (c : TabChief) (now : Nat) (h : wellFormed c) :
    wellFormed (stop c now).1 := by
  by_cases h1 : c.state = TabState.STOPPED
  · unfold stop
    simp [h1]
    exact h
  · by_cases h2 : c.state = TabState.IDLE
    · unfold stop
      simp [h2]
      exact h
    · rw [stop_fst c now h1 h2]
      unfold wellFormed
      simp

theorem wellFormed_fireElectionTimer (c : TabChief) (now : Nat) (h : wellFormed c) :
    wellFormed (fireElectionTimer c now).1 := by
  match ht : c.electionTimer with
  | none => simp [fireElectionTimer, ht]; exact h
  | some k =>
    have hlive : ¬(c.state = TabState.IDLE ∨ c.state = TabState.STOPPED) := by
      intro hdead
      unfold wellFormed at h
      simp [hdead, ht] at h
    have ho : c.channelOpen = true := by
      unfold wellFormed at h
      simpa [hlive] using h
    unfold fireElectionTimer
    rw [ht]
    match k with
    | TimerKind.victory => exact wellFormed_declareVictory _ now (by simpa using ho)
    | TimerKind.liveness =>
      refine wellFormed_startElection _ ?_ (by simpa using ho)
      exact wellFormed_live _ (by simpa using (not_or.mp hlive).1)
        (by simpa using (not_or.mp hlive).2) (by simpa using ho)

theorem wellFormed_fireHeartbeatTimer (c : TabChief) (now : Nat) (h : wellFormed c) :
    wellFormed (fireHeartbeatTimer c now).1 := by
  unfold fireHeartbeatTimer
  split <;> exact h

theorem wellFormed_debounceExpire (c : TabChief) (h : wellFormed c) :
    wellFormed c.debounceExpire := by
  unfold wellFormed debounceExpire at *
  split at h <;> simp_all

theorem wellFormed_postMessage (c : TabChief) (p now : Nat) (h : wellFormed c) :
    wellFormed (postMessage c p now).1 := by
  unfold postMessage
  split <;> exact h

theorem wellFormed_runExclusive (c : TabChief) (t : TaskSpec) (h : wellFormed c) :
    wellFormed (runExclusive c t).1 := by
  by_cases hc : c.state = TabState.CHIEF
  · unfold runExclusive runTask
    by_cases hthrows : t.throws = true
    · simp only [hc, beq_self_eq_true, if_true, hthrows, if_pos]
      exact wellFormed_of_fields c _ h (by simp [hc]) rfl rfl rfl rfl
    · simp only [hc, beq_self_eq_true, if_true, hthrows, Bool.false_eq_true, if_false,
                 if_pos, if_neg]
      cases t.cleanup <;>
        exact wellFormed_of_fields c _ h (by simp [hc]) (by simp) (by simp) (by simp)
          (by simp)
  · unfold runExclusive
    simp only [hc]
    have hcb : (c.state == TabState.CHIEF) = false := by simp [hc]
    simp only [hcb, Bool.false_eq_true, if_false, if_neg]
    exact wellFormed_of_fields c _ h (by simp) (by simp) (by simp) (by simp) (by simp)

theorem wellFormed_onMessage (c : TabChief) (cb : CallbackSpec) (h : wellFormed c) :
    wellFormed (onMessage c cb) :=
  wellFormed_of_fields c _ h rfl rfl rfl rfl rfl

theorem wellFormed_onStateChange (c : TabChief) (cb : CallbackSpec) (h : wellFormed c) :
    wellFormed (onStateChange c cb) :=
  wellFormed_of_fields c _ h rfl rfl rfl rfl rfl

theorem wellFormed_onBecomeChief (c : TabChief) (cb : CallbackSpec) (h : wellFormed c) :
    wellFormed (onBecomeChief c cb) :=
  wellFormed_of_fields c _ h rfl rfl rfl rfl rfl

theorem wellFormed_onBecomeFollower (c : TabChief) (cb : CallbackSpec) (h : wellFormed c) :
    wellFormed (onBecomeFollower c cb) :=
  wellFormed_of_fields c _ h rfl rfl rfl rfl rfl

theorem wellFormed_handleBeforeUnload (c : TabChief) (now : Nat) (h : wellFormed c) :
    wellFormed (handleBeforeUnload c now).1 := by
  unfold handleBeforeUnload runCleanups
  exact wellFormed_of_fields c _ h rfl rfl rfl rfl rfl

theorem wellFormed_init (tabId : String) (ts : Nat) : wellFormed (initTabChief tabId ts) := by
  unfold wellFormed initTabChief
  simp

end TabChief

/-- Reachable single-instance states: a fresh instance driven by any
interleaving of public calls, message deliveries (only while the channel
is open, as the transport attaches the listener only then), timer
firings and the unload hook. -/
inductive Reach : TabChief → Prop where
  | init (tabId : String) (ts : Nat) : Reach (initTabChief tabId ts)
  | step_start {c : TabChief} : Reach c → Reach (TabChief.start c).1
  | step_stop {c : TabChief} (now : Nat) : Reach c → Reach (TabChief.stop c now).1
  | step_runExclusive {c : TabChief} (t : TaskSpec) :
      Reach c → Reach (TabChief.runExclusive c t).1
  | step_postMessage {c : TabChief} (p now : Nat) :
      Reach c → Reach (TabChief.postMessage c p now).1
  | step_onMessage {c : TabChief} (cb : CallbackSpec) :
      Reach c → Reach (TabChief.onMessage c cb)
  | step_onStateChange {c : TabChief} (cb : CallbackSpec) :
      Reach c → Reach (TabChief.onStateChange c cb)
  | step_onBecomeChief {c : TabChief} (cb : CallbackSpec) :
      Reach c → Reach (TabChief.onBecomeChief c cb)
  | step_onBecomeFollower {c : TabChief} (cb : CallbackSpec) :
      Reach c → Reach (TabChief.onBecomeFollower c cb)
  | step_message {c : TabChief} (m : ChannelMessage) (now : Nat) :
      Reach c → c.channelOpen = true → Reach (TabChief.handleMessage c m now).1
  | step_electionTimer {c : TabChief} (now : Nat) :
      Reach c → Reach (TabChief.fireElectionTimer c now).1
  | step_heartbeatTimer {c : TabChief} (now : Nat) :
      Reach c → Reach (TabChief.fireHeartbeatTimer c now).1
  | step_debounce {c : TabChief} : Reach c → Reach c.debounceExpire
  | step_beforeUnload {c : TabChief} (now : Nat) :
      Reach c → Reach (TabChief.handleBeforeUnload c now).1

/-- Every reachable instance satisfies the channel/timer invariant. -/
theorem reach_wellFormed {c : TabChief} (h : Reach c) : wellFormed c := by
  induction h with
  | init tabId ts => exact TabChief.wellFormed_init tabId ts
  | step_start _ ih => exact TabChief.wellFormed_start _ ih
  | step_stop now _ ih => exact TabChief.wellFormed_stop _ now ih
  | step_runExclusive t _ ih => exact TabChief.wellFormed_runExclusive _ t ih
  | step_postMessage p now _ ih => exact TabChief.wellFormed_postMessage _ p now ih
  | step_onMessage cb _ ih => exact TabChief.wellFormed_onMessage _ cb ih
  | step_onStateChange cb _ ih => exact TabChief.wellFormed_onStateChange _ cb ih
  | step_onBecomeChief cb _ ih => exact TabChief.wellFormed_onBecomeChief _ cb ih
  | step_onBecomeFollower cb _ ih => exact TabChief.wellFormed_onBecomeFollower _ cb ih
  | step_message m now _ hopen ih => exact TabChief.wellFormed_handleMessage _ m now ih hopen
  | step_electionTimer now _ ih => exact TabChief.wellFormed_fireElectionTimer _ now ih
  | step_heartbeatTimer now _ ih => exact TabChief.wellFormed_fireHeartbeatTimer _ now ih
  | step_debounce _ ih => exact TabChief.wellFormed_debounceExpire _ ih
  | step_beforeUnload now _ ih => exact TabChief.wellFormed_handleBeforeUnload _ now ih

open TabChief in
/-- C10: `postMessage` while `IDLE` or `STOPPED` is a complete no-op —
nothing is handed to the transport and no local message callback runs;
in every other (reachable) state it leaves the instance unchanged,
hands exactly one `DATA` message carrying the payload to the transport,
and invokes each locally subscribed message callback synchronously
exactly once with the payload. -/
theorem postMessage_spec (c : TabChief) (p now : Nat) :
    ((c.state = TabState.IDLE ∨ c.state = TabState.STOPPED) →
      postMessage c p now = (c, [])) ∧
    (Reach c → c.state ≠ TabState.IDLE → c.state ≠ TabState.STOPPED →
      (postMessage c p now).1 = c ∧
      (postMessage c p now).2.filterMap sentOf =
        [{ type := MessageType.DATA, senderId := c.tabId, timestamp := now,
           payload := p }] ∧
      (postMessage c p now).2.filterMap (msgCbIdFor p) =
        c.messageCallbacks.map (·.cbId)) := by
  constructor
  · intro h
    unfold postMessage
    rcases h with h | h <;> simp [h]
  · intro hr h1 h2
    have ho : c.channelOpen = true :=
      wellFormed_open c (reach_wellFormed hr) h1 h2
    have hguard :
        (!c.channelOpen || c.state == TabState.STOPPED || c.state == TabState.IDLE) =
          false := by
      simp [ho, h1, h2]
    unfold postMessage
    rw [hguard]
    simp only [Bool.false_eq_true, if_false, notifyMessageCallbacks, if_neg]
    refine ⟨?_, ?_, ?_⟩
    · simp
    · simp [sentOf, messageList_filter_sent]
    · simp [msgCbIdFor, messageList_filter_msgCb]

/-- A concrete reachable started instance with one message
subscriber. -/
def reachDemo : TabChief :=
  TabChief.onMessage (TabChief.start (initTabChief "a" 100)).1 { cbId := 3 }

/-- The instance `reachDemo` is reachable. -/
theorem reachDemo_reach : Reach reachDemo :=
  Reach.step_onMessage { cbId := 3 } (Reach.step_start (Reach.init "a" 100))

/-- Witness for C10: at the reachable `ELECTING` instance `reachDemo`,
`postMessage` leaves the instance unchanged, sends exactly one `DATA`
message, and invokes subscriber 3 exactly once with the payload; on a
fresh `IDLE` instance it is a complete no-op. -/
theorem postMessage_spec_witness :
    (TabChief.postMessage reachDemo 7 500).1 = reachDemo ∧
    (TabChief.postMessage reachDemo 7 500).2.filterMap sentOf =
      [{ type := MessageType.DATA, senderId := "a", timestamp := 500, payload := 7 }] ∧
    (TabChief.postMessage reachDemo 7 500).2.filterMap (msgCbIdFor 7) = [3] ∧
    TabChief.postMessage (initTabChief "i" 50) 7 500 = (initTabChief "i" 50, []) := by
  have h := (postMessage_spec reachDemo 7 500).2 reachDemo_reach (by decide) (by decide)
  have h2 := (postMessage_spec (initTabChief "i" 50) 7 500).1 (Or.inl rfl)
  exact ⟨h.1, by simpa using h.2.1, by simpa using h.2.2, h2⟩
